import Mathlib

/-!
Shallow embedding of `pyRafters/handler_base.py` and verification of its
specification claims.

The module defines an abstract-base-class hierarchy for data handlers:
a lifecycle flag (`_active`) with `activate` / `deactivate` transitions,
pickling hooks (`__getstate__` / `__setstate__`) built on a declarative
reconstruction mapping (`kwarg_dict`), context-manager scoping
(`__enter__` / `__exit__`), guard decorators (`require_active` /
`require_inactive`), frame handlers carrying `resolution` /
`resolution_units`, table sources with a derived `iter_tables`, and the
`available_handler_list` discovery function.

Python values relevant to the embedding (None, scalars, lists, numpy
arrays) are modelled by the inductive `PyVal`; exceptions are modelled
by `Except` with the error kind `PyErr`.
-/

/-- Payload of a numpy array as produced by `np.array` on the inputs used
by `handler_base.py`: either a 0-d (scalar) array or a 1-d array. -/
inductive NdData where
  | scalar (n : Int)
  | vec (xs : List Int)
deriving DecidableEq

/-- Python values flowing through the handler constructors: `None`,
an int scalar, a list (iterable), or a numpy array. -/
inductive PyVal where
  | pynone
  | int (n : Int)
  | pylist (xs : List Int)
  | ndarray (d : NdData)
deriving DecidableEq

/-- Model of `np.array` on the value shapes used by the frame handlers:
a scalar becomes a 0-d array, an iterable becomes a 1-d array, an array
is passed through unchanged (up to value equality).  `None` is never
passed to `np.array` by the code (the constructors replace it first). -/
def np_array : PyVal → PyVal
  | .pynone => .pynone
  | .int n => .ndarray (.scalar n)
  | .pylist xs => .ndarray (.vec xs)
  | .ndarray d => .ndarray d

/-- Model of Python/numpy `==` on `PyVal` (restricted to the shapes above):
a 0-d array compares equal to the scalar it wraps, 1-d data compares
elementwise. -/
def py_eq : PyVal → PyVal → Bool
  | .int n, .int m => n == m
  | .int n, .ndarray (.scalar m) => n == m
  | .ndarray (.scalar n), .int m => n == m
  | .ndarray (.scalar n), .ndarray (.scalar m) => n == m
  | .ndarray (.vec xs), .ndarray (.vec ys) => xs == ys
  | .pylist xs, .ndarray (.vec ys) => xs == ys
  | .ndarray (.vec xs), .pylist ys => xs == ys
  | .pylist xs, .pylist ys => xs == ys
  | _, _ => false

/-- Error kinds raised by `handler_base.py`: `pickle.PicklingError` in
`__getstate__`, the `RequireActive` / `RequireInactive` exception classes
raised by the guard decorators, and `KeyError` raised by the metadata
lookups. -/
inductive PyErr where
  | picklingError
  | requireActive
  | requireInactive
  | keyError
deriving DecidableEq

/-- The reconstruction mapping (`kwarg_dict`) of a Frame-kind handler:
the abstract base contributes the empty dict and `FrameSource.kwarg_dict`
/ `FrameSink.kwarg_dict` update it with exactly the keys `resolution`
and `resolution_units`. -/
structure KwargDict where
  resolution : PyVal
  resolution_units : String
deriving DecidableEq

/-- The interface of `BaseDataHandler` as used by its concrete base-class
methods: the `active` property, the `activate` / `deactivate` transitions
and the abstract `kwarg_dict` property, over an arbitrary concrete
handler state `S` with reconstruction mapping type `K`. -/
structure HandlerOps (S K : Type) where
  active : S → Bool
  activate : S → S
  deactivate : S → S
  kwarg_dict : S → K

/-- `BaseDataHandler.__getstate__`: raise `pickle.PicklingError` when the
handler is active, otherwise return `kwarg_dict`. -/
def getstate {S K : Type} (ops : HandlerOps S K) (s : S) : Except PyErr K :=
  if ops.active s then .error .picklingError
  else .ok (ops.kwarg_dict s)

/-- `BaseDataHandler.__enter__`: activate the handler and return it. -/
def enter_scope {S K : Type} (ops : HandlerOps S K) (s : S) : S :=
  ops.activate s

/-- `BaseDataHandler.__exit__`: deactivate the handler (run on every exit
path of a `with` block, exceptional or not; returning `None` it never
swallows the exception). -/
def exit_scope {S K : Type} (ops : HandlerOps S K) (s : S) : S :=
  ops.deactivate s

/-- Semantics of `with handler: body` for a handler with base-class
`__enter__` / `__exit__`: the body receives the handler returned by
`__enter__` and produces a result (normal value or raised exception)
together with the handler state it leaves behind; `__exit__` then runs
unconditionally and the body's result propagates unchanged. -/
def with_scope {S K E A : Type} (ops : HandlerOps S K)
    (body : S → Except E A × S) (s : S) : Except E A × S :=
  let s1 := enter_scope ops s
  let r := body s1
  (r.1, exit_scope ops r.2)

/-- The `require_active` decorator: wraps `fn`, raising `RequireActive`
when the handler is not active and otherwise returning `fn`'s result
unchanged. -/
def require_active {S A : Type} (fn : S → A) (active : S → Bool) (s : S) :
    Except PyErr A :=
  if !(active s) then .error .requireActive
  else .ok (fn s)

/-- The `require_inactive` decorator: wraps `fn`, raising
`RequireInactive` when the handler is active and otherwise returning
`fn`'s result unchanged. -/
def require_inactive {S A : Type} (fn : S → A) (active : S → Bool) (s : S) :
    Except PyErr A :=
  if active s then .error .requireInactive
  else .ok (fn s)

/-- State of a (minimal concrete) `FrameSource`: the fields written by
`FrameSource.__init__` plus the `_active` flag written by
`BaseDataHandler.__init__`. -/
structure FrameSource where
  _resolution : PyVal
  _resolution_units : String
  _active : Bool
deriving DecidableEq

/-- `FrameSource.__init__`: default `resolution` to `1` and
`resolution_units` to `'pix'` when `None`, store `np.array(resolution)`
and the units, then chain up to `BaseDataHandler.__init__` which sets
`_active = False`. -/
def FrameSource.init (resolution : PyVal) (resolution_units : Option String) :
    FrameSource :=
  let resolution := match resolution with
    | .pynone => .int 1
    | r => r
  let resolution_units := match resolution_units with
    | none => "pix"
    | some u => u
  { _resolution := np_array resolution,
    _resolution_units := resolution_units,
    _active := false }

/-- The `FrameSource.resolution` property. -/
def FrameSource.resolution (s : FrameSource) : PyVal :=
  s._resolution

/-- The `FrameSource.resolution_units` property. -/
def FrameSource.resolution_units (s : FrameSource) : String :=
  s._resolution_units

/-- The `BaseDataHandler.active` property on a `FrameSource`. -/
def FrameSource.active (s : FrameSource) : Bool :=
  s._active

/-- `BaseDataHandler.activate` on a `FrameSource`: set `_active = True`. -/
def FrameSource.activate (s : FrameSource) : FrameSource :=
  { s with _active := true }

/-- `BaseDataHandler.deactivate` on a `FrameSource`: set `_active = False`. -/
def FrameSource.deactivate (s : FrameSource) : FrameSource :=
  { s with _active := false }

/-- `FrameSource.kwarg_dict`: the base dict (empty) updated with the
`resolution` and `resolution_units` keys. -/
def FrameSource.kwarg_dict (s : FrameSource) : KwargDict :=
  { resolution := s.resolution,
    resolution_units := s.resolution_units }

/-- `BaseDataHandler.__setstate__` on a `FrameSource`: re-invoke
`__init__` with the captured mapping (never assign fields directly). -/
def FrameSource.setstate (in_dict : KwargDict) : FrameSource :=
  FrameSource.init in_dict.resolution (some in_dict.resolution_units)

/-- The base implementation of `FrameSource.get_frame_metadata`: always
raises `KeyError`, for any frame number and key. -/
def FrameSource.get_frame_metadata (_self : FrameSource) (_frame_num : Nat)
    (_key : String) : Except PyErr PyVal :=
  .error .keyError

/-- The base implementation of `FrameSource.get_metadata`: always raises
`KeyError`, for any key. -/
def FrameSource.get_metadata (_self : FrameSource) (_key : String) :
    Except PyErr PyVal :=
  .error .keyError

/-- The `BaseDataHandler` interface instantiated at `FrameSource`. -/
def frameSourceOps : HandlerOps FrameSource KwargDict :=
  { active := FrameSource.active,
    activate := FrameSource.activate,
    deactivate := FrameSource.deactivate,
    kwarg_dict := FrameSource.kwarg_dict }

/-- State of a (minimal concrete) `FrameSink`: the fields written by
`FrameSink.__init__` plus the `_active` flag written by
`BaseDataHandler.__init__`. -/
structure FrameSink where
  _resolution : PyVal
  _resolution_units : String
  _active : Bool
deriving DecidableEq

/-- `FrameSink.__init__`: same defaulting and storage as
`FrameSource.__init__`, then chain up to `BaseDataHandler.__init__`. -/
def FrameSink.init (resolution : PyVal) (resolution_units : Option String) :
    FrameSink :=
  let resolution := match resolution with
    | .pynone => .int 1
    | r => r
  let resolution_units := match resolution_units with
    | none => "pix"
    | some u => u
  { _resolution := np_array resolution,
    _resolution_units := resolution_units,
    _active := false }

/-- `FrameSink.set_resolution`: store both arguments verbatim into
`_resolution` and `_resolution_units` (no `np.array` conversion, no
defaulting, no other field touched). -/
def FrameSink.set_resolution (self : FrameSink) (resolution : PyVal)
    (resolution_units : String) : FrameSink :=
  { self with _resolution := resolution,
              _resolution_units := resolution_units }

/-- The `FrameSink.resolution` property. -/
def FrameSink.resolution (s : FrameSink) : PyVal :=
  s._resolution

/-- The `FrameSink.resolution_units` property. -/
def FrameSink.resolution_units (s : FrameSink) : String :=
  s._resolution_units

/-- The `BaseDataHandler.active` property on a `FrameSink`. -/
def FrameSink.active (s : FrameSink) : Bool :=
  s._active

/-- `BaseDataHandler.activate` on a `FrameSink`. -/
def FrameSink.activate (s : FrameSink) : FrameSink :=
  { s with _active := true }

/-- `BaseDataHandler.deactivate` on a `FrameSink`. -/
def FrameSink.deactivate (s : FrameSink) : FrameSink :=
  { s with _active := false }

/-- `FrameSink.kwarg_dict`: the base dict (empty) updated with the
`resolution` and `resolution_units` keys. -/
def FrameSink.kwarg_dict (s : FrameSink) : KwargDict :=
  { resolution := s.resolution,
    resolution_units := s.resolution_units }

/-- The `BaseDataHandler` interface instantiated at `FrameSink`. -/
def frameSinkOps : HandlerOps FrameSink KwargDict :=
  { active := FrameSink.active,
    activate := FrameSink.activate,
    deactivate := FrameSink.deactivate,
    kwarg_dict := FrameSink.kwarg_dict }

/-- The state-mutating operations defined on a `FrameSink` (the handler
kind with the largest mutator set: the lifecycle transitions plus the
resolution setter). -/
inductive HOp where
  | activate
  | deactivate
  | set_resolution (r : PyVal) (u : String)

/-- One mutating operation applied to a `FrameSink` state. -/
def FrameSink.step : HOp → FrameSink → FrameSink
  | .activate, s => FrameSink.activate s
  | .deactivate, s => FrameSink.deactivate s
  | .set_resolution r u, s => FrameSink.set_resolution s r u

/-- The interface of a concrete `TableSource`: the `active` property,
the abstract `table_keys` enumeration and the abstract single-table
`read_table` operation, over a concrete state `S` with table type `T`. -/
structure TableOps (S T : Type) where
  active : S → Bool
  table_keys : S → List String
  read_table : S → String → T

/-- `TableSource.iter_tables` (decorated with `@require_active`): read
`table_keys()` and yield `read_table(k)` for each key `k` in order; the
guard raises `RequireActive` when the handler is inactive. -/
def iter_tables {S T : Type} (ops : TableOps S T) (s : S) :
    Except PyErr (List T) :=
  require_active
    (fun self => (ops.table_keys self).map (fun k => ops.read_table self k))
    ops.active s

/-- A Python class object for the discovery model: a name, the
`inspect.isabstract` flag, and its direct subclasses (`__subclasses__`). -/
inductive PyClass where
  | mk (name : String) (isAbstract : Bool) (children : List PyClass)

mutual

def decEqPyClass : (a b : PyClass) → Decidable (a = b)
  | .mk n1 x1 c1, .mk n2 x2 c2 =>
    match String.decEq n1 n2 with
    | isTrue h1 =>
      match Bool.decEq x1 x2 with
      | isTrue h2 =>
        match decEqListPyClass c1 c2 with
        | isTrue h3 => isTrue (by rw [h1, h2, h3])
        | isFalse h3 => isFalse (by intro h; injection h; contradiction)
      | isFalse h2 => isFalse (by intro h; injection h; contradiction)
    | isFalse h1 => isFalse (by intro h; injection h; contradiction)

def decEqListPyClass : (a b : List PyClass) → Decidable (a = b)
  | [], [] => isTrue rfl
  | [], _ :: _ => isFalse (by intro h; injection h)
  | _ :: _, [] => isFalse (by intro h; injection h)
  | a :: as, b :: bs =>
    match decEqPyClass a b with
    | isTrue h1 =>
      match decEqListPyClass as bs with
      | isTrue h2 => isTrue (by rw [h1, h2])
      | isFalse h2 => isFalse (by intro h; injection h; contradiction)
    | isFalse h1 => isFalse (by intro h; injection h; contradiction)

end

instance : DecidableEq PyClass := decEqPyClass

/-- The `inspect.isabstract` flag of a class. -/
def PyClass.isAbstract : PyClass → Bool
  | .mk _ a _ => a

/-- The direct subclasses of a class. -/
def PyClass.children : PyClass → List PyClass
  | .mk _ _ c => c

mutual

/-- Python's `issubclass(h, filt)`: `h` is `filt` itself or a transitive
descendant of `filt`. -/
def issubclass (h filt : PyClass) : Bool :=
  match filt with
  | .mk n a ch => decide (h = PyClass.mk n a ch) || issubclassAny h ch

/-- `h` is a subclass of some class in the list. -/
def issubclassAny (h : PyClass) : List PyClass → Bool
  | [] => false
  | c :: rest => issubclass h c || issubclassAny h rest

end

mutual

/-- Modelled from the spec: `utils.all_subclasses` (imported by
`handler_base.py` as `_all_subclasses`; its source file is not part of
the given sources).  Per the spec it recursively discovers, through the
type hierarchy, every transitive concrete (non-abstract) descendant of
the given class, in hierarchy order. -/
def all_subclasses : PyClass → List PyClass
  | .mk _ _ ch => all_subclassesList ch

/-- Modelled from the spec: the concrete members of each subtree rooted
at a class in the list, in order. -/
def all_subclassesList : List PyClass → List PyClass
  | [] => []
  | c :: rest =>
    ((if c.isAbstract then [] else [c]) ++ all_subclasses c)
      ++ all_subclassesList rest

end

/-- `available_handler_list(base_handler, filter_list)`: collect the base
class when it is not abstract, append all (concrete) subclasses, then
keep the classes that are a subclass of some element of `filter_list`
(OR logic); a `None` filter keeps everything. -/
def available_handler_list (base_handler : PyClass)
    (filter_list : Option (List PyClass)) : List PyClass :=
  let h_lst := (if base_handler.isAbstract then [] else [base_handler])
    ++ all_subclasses base_handler
  h_lst.filter fun h =>
    match filter_list with
    | none => true
    | some fl => fl.any fun filt => issubclass h filt

/-- A concrete table source used to witness the table-iteration claims:
the state is the `active` flag, two fixed table names, and a read
operation tagging the name. -/
def demoTableOps : TableOps Bool String :=
  { active := fun b => b,
    table_keys := fun _ => ["t1", "t2"],
    read_table := fun _ k => k ++ "!" }

/-- Concrete class `A` (concrete leaf) of the discovery scenario. -/
def clA : PyClass := .mk "A" false []

/-- Concrete class `B` (concrete leaf) of the discovery scenario. -/
def clB : PyClass := .mk "B" false []

/-- Abstract role class with concrete descendants `A` and `B`. -/
def clRole : PyClass := .mk "Role" true [clA, clB]

/-- Abstract filter class implemented by `A` only. -/
def clFilt : PyClass := .mk "Filt" true [clA]

/-- Helper: `np.array` is idempotent on the modelled values. -/
theorem np_array_idem (v : PyVal) : np_array (np_array v) = np_array v := by
  cases v <;> rfl

/-- Helper: the resolution stored by `FrameSource.init` is a numpy array
(image of `np_array`). -/
theorem init_resolution_np (r : PyVal) (u : Option String) :
    (FrameSource.init r u)._resolution
      = np_array ((FrameSource.init r u)._resolution) := by
  cases r <;> simp [FrameSource.init, np_array]

/-- C3: for the modelled handler types, immediately after construction the
`_active` flag is false; and across every mutating operation the flag
becomes true exactly under `activate`, false exactly under `deactivate`,
and is untouched by `set_resolution`. -/
theorem lifecycle_flag_transitions :
    (∀ r u, (FrameSource.init r u)._active = false
      ∧ (FrameSink.init r u)._active = false)
    ∧ (∀ op s, (FrameSink.step op s)._active =
        match op with
        | .activate => true
        | .deactivate => false
        | .set_resolution _ _ => s._active) := by
  constructor
  · intro r u
    constructor <;> cases r <;> rfl
  · intro op s
    cases op <;> rfl

/-- C9: a Frame-kind handler (source or sink) constructed with `None`
resolution and units gets resolution `np.array(1)` — a 0-d array equal
(under Python `==`) to the scalar `1` — and units `"pix"`. -/
theorem frame_default_resolution :
    (FrameSource.init .pynone none)._resolution = .ndarray (.scalar 1)
    ∧ py_eq (FrameSource.init .pynone none)._resolution (.int 1) = true
    ∧ (FrameSource.init .pynone none)._resolution_units = "pix"
    ∧ (FrameSink.init .pynone none)._resolution = .ndarray (.scalar 1)
    ∧ py_eq (FrameSink.init .pynone none)._resolution (.int 1) = true
    ∧ (FrameSink.init .pynone none)._resolution_units = "pix" := by
  refine ⟨rfl, rfl, rfl, rfl, rfl, rfl⟩

/-- C10: `FrameSink.set_resolution` stores both arguments verbatim (in
particular no `np.array` conversion: the stored value is the argument
itself even when it is a bare scalar) and leaves the `_active` flag and
hence the rest of the state unchanged. -/
theorem set_resolution_verbatim (s : FrameSink) (r : PyVal) (u : String) :
    (FrameSink.set_resolution s r u)._resolution = r
    ∧ (FrameSink.set_resolution s r u)._resolution_units = u
    ∧ (FrameSink.set_resolution s r u)._active = s._active := by
  refine ⟨rfl, rfl, rfl⟩

/-- C7: the base implementations of both metadata lookups on a
Frame-kind handler raise `KeyError` for every key (and frame number),
and never return a value — no `None`-like missing sentinel. -/
theorem metadata_miss_raises (s : FrameSource) (n : Nat) (k : String) :
    FrameSource.get_frame_metadata s n k = .error .keyError
    ∧ FrameSource.get_metadata s k = .error .keyError
    ∧ (∀ v, FrameSource.get_frame_metadata s n k ≠ .ok v)
    ∧ (∀ v, FrameSource.get_metadata s k ≠ .ok v) := by
  refine ⟨rfl, rfl, fun v h => ?_, fun v h => ?_⟩ <;>
    simp [FrameSource.get_frame_metadata, FrameSource.get_metadata] at h

/-- C7 witness: the lookups evaluated at a concrete handler and key. -/
theorem metadata_miss_raises_witness :
    FrameSource.get_metadata (FrameSource.init .pynone none) "instrument"
      = .error .keyError
    ∧ FrameSource.get_frame_metadata (FrameSource.init .pynone none) 0 "time"
      = .error .keyError := by
  have h := metadata_miss_raises (FrameSource.init .pynone none) 0 "time"
  have h2 := metadata_miss_raises (FrameSource.init .pynone none) 0 "instrument"
  exact ⟨h2.2.1, h.1⟩

/-- C2: `__getstate__` fails (with a `PicklingError`) exactly when the
handler is active, and on an inactive handler returns exactly the
reconstruction mapping `kwarg_dict`. -/
theorem getstate_iff_active {S K : Type} (ops : HandlerOps S K) (s : S) :
    ((∃ e, getstate ops s = .error e) ↔ ops.active s = true)
    ∧ (ops.active s = true → getstate ops s = .error .picklingError)
    ∧ (ops.active s = false → getstate ops s = .ok (ops.kwarg_dict s)) := by
  cases h : ops.active s <;> simp [getstate, h]

/-- C2 witness: capturing an inactive default frame source yields its
`kwarg_dict`; capturing it after activation raises `PicklingError`. -/
theorem getstate_iff_active_witness :
    getstate frameSourceOps (FrameSource.init .pynone none)
      = .ok { resolution := .ndarray (.scalar 1), resolution_units := "pix" }
    ∧ getstate frameSourceOps
        (FrameSource.activate (FrameSource.init .pynone none))
      = .error .picklingError := by
  have h1 := getstate_iff_active frameSourceOps (FrameSource.init .pynone none)
  have h2 := getstate_iff_active frameSourceOps
    (FrameSource.activate (FrameSource.init .pynone none))
  exact ⟨h1.2.2 rfl, h2.2.1 rfl⟩

/-- C4: the `require_active` guard raises `RequireActive` exactly when the
handler is inactive and returns the wrapped function's result unchanged
exactly when it is active; `require_inactive` symmetrically. -/
theorem guard_decorators {S A : Type} (fn : S → A) (active : S → Bool) (s : S) :
    (require_active fn active s = .error .requireActive ↔ active s = false)
    ∧ (require_active fn active s = .ok (fn s) ↔ active s = true)
    ∧ (require_inactive fn active s = .error .requireInactive ↔ active s = true)
    ∧ (require_inactive fn active s = .ok (fn s) ↔ active s = false) := by
  cases h : active s <;>
    simp [require_active, require_inactive, h]

/-- C4 witness: the guards evaluated on a concrete one-flag handler state
in both lifecycle states. -/
theorem guard_decorators_witness :
    require_active (fun b : Bool => b) (fun b => b) false
      = .error .requireActive
    ∧ require_active (fun b : Bool => b) (fun b => b) true = .ok true
    ∧ require_inactive (fun b : Bool => b) (fun b => b) true
      = .error .requireInactive
    ∧ require_inactive (fun b : Bool => b) (fun b => b) false = .ok false := by
  have hf := guard_decorators (fun b : Bool => b) (fun b => b) false
  have ht := guard_decorators (fun b : Bool => b) (fun b => b) true
  exact ⟨hf.1.mpr rfl, ht.2.1.mpr rfl, ht.2.2.1.mpr rfl, hf.2.2.2.mpr rfl⟩

/-- C5: entering the scoped-activation wrapper is exactly `activate` (and
returns the handler itself, which the scope body receives), so `_active`
is true inside the scope; on every exit path — the body's result being a
normal value or a raised exception — `__exit__` deactivates, so `_active`
is false after the scope, and the body's result propagates unchanged. -/
theorem scoped_activation {E A : Type}
    (body : FrameSource → Except E A × FrameSource) (s : FrameSource) :
    enter_scope frameSourceOps s = FrameSource.activate s
    ∧ (enter_scope frameSourceOps s)._active = true
    ∧ (with_scope frameSourceOps body s).1
        = (body (enter_scope frameSourceOps s)).1
    ∧ ((with_scope frameSourceOps body s).2)._active = false := by
  refine ⟨rfl, rfl, rfl, rfl⟩

/-- C6: on an active table source, `iter_tables` succeeds and yields, in
enumeration order, exactly one table per name in `table_keys` — the
`i`-th item being `read_table` of the `i`-th name; on an inactive source
it raises the `RequireActive` guard error. -/
theorem iter_tables_spec {S T : Type} (ops : TableOps S T) (s : S) :
    (ops.active s = true →
      iter_tables ops s
        = .ok ((ops.table_keys s).map (fun k => ops.read_table s k))
      ∧ ∃ ts, iter_tables ops s = .ok ts
        ∧ ts.length = (ops.table_keys s).length
        ∧ ∀ i : Nat, ts[i]?
            = ((ops.table_keys s)[i]?).map (fun k => ops.read_table s k))
    ∧ (ops.active s = false → iter_tables ops s = .error .requireActive) := by
  constructor
  · intro h
    refine ⟨?_, (ops.table_keys s).map (fun k => ops.read_table s k), ?_, ?_, ?_⟩
    · simp [iter_tables, require_active, h]
    · simp [iter_tables, require_active, h]
    · simp
    · intro i
      simp [List.getElem?_map]
  · intro h
    simp [iter_tables, require_active, h]

/-- C6 witness: a concrete two-table source, iterated while active and
while inactive. -/
theorem iter_tables_spec_witness :
    iter_tables demoTableOps true = .ok ["t1!", "t2!"]
    ∧ iter_tables demoTableOps false = .error .requireActive := by
  have ht := iter_tables_spec demoTableOps true
  have hf := iter_tables_spec demoTableOps false
  exact ⟨by rw [(ht.1 rfl).1]; rfl, hf.2 rfl⟩

/-- C1: restoring a Frame-kind handler is by definition a full
re-invocation of the constructor on the captured mapping; capturing an
(inactive, freshly constructed) handler succeeds, reconstructing from the
captured mapping yields a handler whose own re-captured mapping equals
the original mapping, and in particular the reconstructed resolution and
resolution units equal the originals. -/
theorem reconstruction_roundtrip :
    (∀ d, FrameSource.setstate d
      = FrameSource.init d.resolution (some d.resolution_units))
    ∧ (∀ r u,
      getstate frameSourceOps (FrameSource.init r u)
        = .ok (FrameSource.kwarg_dict (FrameSource.init r u))
      ∧ FrameSource.kwarg_dict
          (FrameSource.setstate (FrameSource.kwarg_dict (FrameSource.init r u)))
        = FrameSource.kwarg_dict (FrameSource.init r u)
      ∧ (FrameSource.setstate
          (FrameSource.kwarg_dict (FrameSource.init r u)))._resolution
        = (FrameSource.init r u)._resolution
      ∧ (FrameSource.setstate
          (FrameSource.kwarg_dict (FrameSource.init r u)))._resolution_units
        = (FrameSource.init r u)._resolution_units) := by
  refine ⟨fun d => rfl, fun r u => ⟨rfl, ?_, ?_, ?_⟩⟩ <;>
    cases r <;>
      simp [FrameSource.init, FrameSource.setstate, FrameSource.kwarg_dict,
        FrameSource.resolution, FrameSource.resolution_units, np_array,
        getstate, frameSourceOps, FrameSource.active]

theorem PyClass.isAbstract_mk (n : String) (a : Bool) (c : List PyClass) :
    (PyClass.mk n a c).isAbstract = a := rfl

/-- Helper: a class is collected by the (spec-modelled) recursive
subclass discovery over a list of subtrees exactly when it is concrete
and a subclass of some class in the list. -/
theorem mem_all_subclassesList : ∀ (l : List PyClass) (h : PyClass),
    h ∈ all_subclassesList l ↔ h.isAbstract = false ∧ issubclassAny h l = true
  | [], h => by simp [all_subclassesList, issubclassAny]
  | c :: rest, h => by
    obtain ⟨n, a, ch⟩ := c
    have h1 := mem_all_subclassesList ch h
    have h2 := mem_all_subclassesList rest h
    cases a <;>
      simp [all_subclassesList, all_subclasses, PyClass.isAbstract_mk,
        issubclassAny, issubclass, h1, h2] <;>
      constructor
    · rintro (rfl | ⟨ha, hs⟩ | ⟨ha, hs⟩)
      · exact ⟨rfl, Or.inl (Or.inl rfl)⟩
      · exact ⟨ha, Or.inl (Or.inr hs)⟩
      · exact ⟨ha, Or.inr hs⟩
    · rintro ⟨ha, ((rfl | hs) | hs)⟩
      · exact Or.inl rfl
      · exact Or.inr (Or.inl ⟨ha, hs⟩)
      · exact Or.inr (Or.inr ⟨ha, hs⟩)
    · rintro (⟨ha, hs⟩ | ⟨ha, hs⟩)
      · exact ⟨ha, Or.inl (Or.inr hs)⟩
      · exact ⟨ha, Or.inr hs⟩
    · rintro ⟨ha, ((rfl | hs) | hs)⟩
      · simp [PyClass.isAbstract_mk] at ha
      · exact Or.inl ⟨ha, hs⟩
      · exact Or.inr ⟨ha, hs⟩
termination_by l _ => sizeOf l
decreasing_by
  all_goals simp
  all_goals omega

/-- C8: with no filter, discovery returns exactly the concrete (not
abstract) classes among the role type and its transitive descendants —
membership is equivalent to being concrete and a subclass of the role
type; with a filter set, the result is narrowed to exactly the members
that are a subclass of at least one filter type (OR logic). -/
theorem discovery_spec (base : PyClass) (fl : List PyClass) (h : PyClass) :
    (h ∈ available_handler_list base none
      ↔ h.isAbstract = false ∧ issubclass h base = true)
    ∧ (h ∈ available_handler_list base (some fl)
      ↔ h ∈ available_handler_list base none
        ∧ ∃ f ∈ fl, issubclass h f = true) := by
  constructor
  · obtain ⟨n, a, ch⟩ := base
    have hm := mem_all_subclassesList ch h
    cases a
    · simp [available_handler_list, all_subclasses, PyClass.isAbstract_mk,
        issubclass, hm, List.mem_filter]
      constructor
      · rintro (rfl | ⟨ha, hs⟩)
        · exact ⟨rfl, Or.inl rfl⟩
        · exact ⟨ha, Or.inr hs⟩
      · rintro ⟨ha, (rfl | hs)⟩
        · exact Or.inl rfl
        · exact Or.inr ⟨ha, hs⟩
    · simp [available_handler_list, all_subclasses, PyClass.isAbstract_mk,
        issubclass, hm, List.mem_filter]
      intro ha heq
      rw [heq] at ha
      simp [PyClass.isAbstract_mk] at ha
  · have hfilter : available_handler_list base (some fl)
        = (available_handler_list base none).filter
            (fun h2 => fl.any fun filt => issubclass h2 filt) := by
      simp [available_handler_list, List.filter_true]
    rw [hfilter, List.mem_filter]
    simp [List.any_eq_true]

/-- C8 witness: the spec's discovery scenario — an abstract role with
concrete descendants `A` and `B` and a filter implemented only by `A`:
filtered discovery contains (and equals) `[A]`, unfiltered discovery
yields `[A, B]`. -/
theorem discovery_spec_witness :
    clA ∈ available_handler_list clRole (some [clFilt])
    ∧ available_handler_list clRole (some [clFilt]) = [clA]
    ∧ available_handler_list clRole none = [clA, clB] := by
  have hd := discovery_spec clRole [clFilt] clA
  exact ⟨hd.2.mpr ⟨hd.1.mpr (by decide), clFilt, by decide, by decide⟩,
    by decide, by decide⟩
